import Mathlib

/-!
Shallow embedding of `src/frontend/src-tauri/src/main.rs` (backend supervisor
of the INTERLENA desktop shell).

The Rust code has two functions:

* `wait_for_backend_ready(port, timeout)`: polls `TcpStream::connect` on
  `127.0.0.1:port` in a loop with a fixed 120 ms sleep until a connect
  succeeds (true) or the deadline `now + timeout` passes (false).
* `spawn_backend(app)`: reads `APP_PORT` (default "8000"), runs a short
  250 ms readiness probe (reuse path), otherwise resolves the sidecar
  binary, spawns it with `--host 127.0.0.1 --port <port>` and environment
  `APP_VERSION` / `UPDATE_FEED_URL`, starts an async task relaying the
  stdout and stderr lines of the child to stderr with a `backend: ` prefix, and
  finally waits up to 15 s for readiness.

The embedding makes the outside world explicit: an `Env` record carries the
process environment variables, the package version, the network (a function
from the current instant in milliseconds to whether a TCP connect on the
target address succeeds), and the outcomes of sidecar resolution and of the
spawn syscall.  Time advances by the poll interval after every failed
connect; a successful connect and all other operations are instantaneous.
Every externally observable action is recorded in a trace of `Effect`s.
-/

namespace Interlena

/-- The `BACKEND_HOST` constant from main.rs. -/
def BACKEND_HOST : String := "127.0.0.1"

/-- The `BACKEND_READY_TIMEOUT` constant from main.rs (15 s), in milliseconds. -/
def BACKEND_READY_TIMEOUT : Nat := 15000

/-- The `BACKEND_READY_POLL` constant from main.rs (120 ms), in milliseconds. -/
def BACKEND_READY_POLL : Nat := 120

/-- Externally observable actions of the supervisor. -/
inductive Effect where
  /-- one `TcpStream::connect(addr)` attempt at instant `time` (ms) -/
  | probe (addr : String) (time : Nat)
  /-- one `eprintln!` line on the stderr diagnostic stream -/
  | log (line : String)
  /-- the `Command::new_sidecar(name)` resolution attempt -/
  | resolveSidecar (name : String)
  /-- the `spawn()` syscall attempt with its arguments and environment -/
  | spawnChild (args : List String) (envs : List (String × String))
  /-- handing the event receiver of the child to the detached relay task -/
  | startRelay
  /-- stopping the relay task (never emitted by this program) -/
  | stopRelay
  /-- killing the spawned child (never emitted by this program) -/
  | killChild
deriving DecidableEq

/-- The world `spawn_backend` runs in: environment variables, package
version, the network, and the outcomes of the two fallible sidecar steps. -/
structure Env where
  /-- value of the `APP_PORT` environment variable, if set -/
  appPort : Option String
  /-- value of the `UPDATE_FEED_URL` environment variable, if set -/
  updateFeedUrl : Option String
  /-- value of `app.package_info().version.to_string()` -/
  version : String
  /-- network model: `net t = true` iff a TCP connect on the backend address succeeds at
  instant `t` (ms since `spawn_backend` started) -/
  net : Nat → Bool
  /-- outcome of `Command::new_sidecar("interview-atlas-backend")` -/
  resolveSidecar : Except String Unit
  /-- outcome of the `spawn()` call on the resolved command -/
  spawnSidecar : Except String Unit

/-- The `while Instant::now() < deadline` loop of `wait_for_backend_ready`.
`fuel` bounds the number of iterations; callers pass enough fuel that it
never runs out before the deadline (each failed probe advances time by
`BACKEND_READY_POLL`).  Returns the result, the instant at loop exit, and
the trace of connect attempts. -/
def waitLoopT (net : Nat → Bool) (addr : String) (deadline fuel t : Nat) :
    Bool × Nat × List Effect :=
  match fuel with
  | 0 => (false, t, [])
  | fuel + 1 =>
    if t < deadline then
      if net t then
        (true, t, [Effect.probe addr t])
      else
        let r := waitLoopT net addr deadline fuel (t + BACKEND_READY_POLL)
        (r.1, r.2.1, Effect.probe addr t :: r.2.2)
    else
      (false, t, [])

/-- Function `wait_for_backend_ready(port, timeout)` from main.rs, started at instant
`t0`.  The address is `format!("{BACKEND_HOST}:{port}")`; the deadline is
`t0 + timeout`.  The fuel `timeout / poll + 1` always suffices. -/
def wait_for_backend_ready (net : Nat → Bool) (port : String)
    (t0 timeout : Nat) : Bool × Nat × List Effect :=
  waitLoopT net (BACKEND_HOST ++ ":" ++ port) (t0 + timeout)
    (timeout / BACKEND_READY_POLL + 1) t0

/-- Default for the `UPDATE_FEED_URL` environment variable (main.rs). -/
def defaultFeedUrl : String :=
  "https://github.com/alexllenaf/INTERLENA-updates/releases/latest/download/latest.json"

/-- The sidecar binary identifier passed to `Command::new_sidecar`. -/
def sidecarName : String := "interview-atlas-backend"

/-- Function `spawn_backend(app)` from main.rs.  Returns the boolean result and the
trace of effects, in program order. -/
def spawn_backend (env : Env) : Bool × List Effect :=
  let port := env.appPort.getD "8000"
  let short := wait_for_backend_ready env.net port 0 250
  if short.1 then
    (true, short.2.2 ++
      [Effect.log ("backend: Reusing existing backend on " ++
        BACKEND_HOST ++ ":" ++ port)])
  else
    let feed_url := env.updateFeedUrl.getD defaultFeedUrl
    let envs := [("APP_VERSION", env.version), ("UPDATE_FEED_URL", feed_url)]
    let args := ["--host", "127.0.0.1", "--port", port]
    match env.resolveSidecar with
    | Except.error err =>
      (false, short.2.2 ++
        [Effect.resolveSidecar sidecarName,
         Effect.log ("Failed to resolve backend sidecar: " ++ err)])
    | Except.ok _ =>
      match env.spawnSidecar with
      | Except.error err =>
        (false, short.2.2 ++
          [Effect.resolveSidecar sidecarName,
           Effect.spawnChild args envs,
           Effect.log ("Failed to spawn backend sidecar: " ++ err)])
      | Except.ok _ =>
        let long := wait_for_backend_ready env.net port short.2.1
          BACKEND_READY_TIMEOUT
        let pre := short.2.2 ++
          [Effect.resolveSidecar sidecarName,
           Effect.spawnChild args envs,
           Effect.startRelay]
        if long.1 then
          (true, pre ++ long.2.2)
        else
          (false, pre ++ long.2.2 ++
            [Effect.log ("Backend sidecar did not become ready on " ++
              BACKEND_HOST ++ ":" ++ port ++ " within 15s")])

/-- The events a Tauri sidecar child can deliver on its receiver. -/
inductive CommandEvent where
  | stdout (line : String)
  | stderr (line : String)
  | terminated (code : Option Int)
  | error (message : String)
deriving DecidableEq

/-- One iteration of the `match event` arm of the relay task: stdout and stderr
lines are re-logged with the `backend: ` prefix, everything else ignored. -/
def relayLine : CommandEvent → Option String
  | CommandEvent.stdout line => some ("backend: " ++ line)
  | CommandEvent.stderr line => some ("backend: " ++ line)
  | _ => none

/-- The lines the detached relay task writes for a given stream of child
events (the `while let Some(event) = rx.recv().await` loop). -/
def relayLogs (events : List CommandEvent) : List String :=
  events.filterMap relayLine

/-! ### Derived observations on traces -/

/-- Whether an effect is a TCP connect attempt. -/
def Effect.isProbe : Effect → Bool
  | Effect.probe _ _ => true
  | _ => false

/-- Number of TCP connect attempts in a trace. -/
def countProbes (tr : List Effect) : Nat :=
  (tr.filter Effect.isProbe).length

/-- Whether an effect is a `spawn()` attempt. -/
def Effect.isSpawnAttempt : Effect → Bool
  | Effect.spawnChild _ _ => true
  | _ => false

/-- Number of `spawn()` attempts in a trace. -/
def countSpawnAttempts (tr : List Effect) : Nat :=
  (tr.filter Effect.isSpawnAttempt).length

/-- Every network- or child-facing effect uses the given port: probes go to
`127.0.0.1:port` and spawn arguments are `--host 127.0.0.1 --port port`. -/
def usesPort (port : String) : Effect → Bool
  | Effect.probe a _ => a == BACKEND_HOST ++ ":" ++ port
  | Effect.spawnChild args _ => args == ["--host", "127.0.0.1", "--port", port]
  | _ => true

/-- An effect that neither kills the child nor stops the relay task. -/
def noCleanup : Effect → Bool
  | Effect.killChild => false
  | Effect.stopRelay => false
  | _ => true

/-- Character-list prefix test (executable). -/
def isTag : List Char → List Char → Bool
  | [], _ => true
  | _ :: _, [] => false
  | c :: cs, d :: ds => c == d && isTag cs ds

/-- Whether `line` starts with the literal text `tag`. -/
def strTagged (tag line : String) : Bool :=
  isTag tag.data line.data

/-! ### Concrete worlds used to instantiate the theorems -/

/-- A world where a backend is already listening: every connect succeeds. -/
def envOpen : Env :=
  { appPort := none, updateFeedUrl := none, version := "1.2.3",
    net := fun _ => true,
    resolveSidecar := Except.ok (), spawnSidecar := Except.ok () }

/-- A world with no listener where the sidecar binary cannot be resolved. -/
def envResolveFail : Env :=
  { appPort := none, updateFeedUrl := none, version := "1.2.3",
    net := fun _ => false,
    resolveSidecar := Except.error "not found", spawnSidecar := Except.ok () }

/-- A world with no listener where resolution succeeds but `spawn()` fails. -/
def envSpawnFail : Env :=
  { appPort := none, updateFeedUrl := none, version := "1.2.3",
    net := fun _ => false,
    resolveSidecar := Except.ok (), spawnSidecar := Except.error "eperm" }

/-- A world where the spawn succeeds but the backend never opens the port. -/
def envNoBackend : Env :=
  { appPort := none, updateFeedUrl := none, version := "1.2.3",
    net := fun _ => false,
    resolveSidecar := Except.ok (), spawnSidecar := Except.ok () }

theorem isTag_append_right (r : List Char) :
    ∀ tag s, isTag tag s = true → isTag tag (s ++ r) = true := by
  intro tag
  induction tag with
  | nil => intro s _; rfl
  | cons c cs ih =>
    intro s h
    cases s with
    | nil => exact absurd h (by simp [isTag])
    | cons d ds =>
      simp only [isTag, Bool.and_eq_true] at h ⊢
      exact ⟨h.1, ih ds h.2⟩

theorem isTag_self_append (r : List Char) :
    ∀ l, isTag l (l ++ r) = true := by
  intro l
  induction l with
  | nil => rfl
  | cons c cs ih => simp [isTag, ih]

/-- A string starts with itself followed by anything. -/
theorem strTagged_self_append (tag r : String) :
    strTagged tag (tag ++ r) = true := by
  unfold strTagged
  rw [String.data_append]
  exact isTag_self_append r.data tag.data

/-- Appending to a tagged string keeps the tag. -/
theorem strTagged_append (tag s t : String) (h : strTagged tag s = true) :
    strTagged tag (s ++ t) = true := by
  unfold strTagged at h ⊢
  rw [String.data_append]
  exact isTag_append_right t.data tag.data s.data h

theorem isTag_append_of_le (r : List Char) :
    ∀ tag s, tag.length ≤ s.length → isTag tag (s ++ r) = isTag tag s := by
  intro tag
  induction tag with
  | nil => intro s _; rfl
  | cons c cs ih =>
    intro s h
    cases s with
    | nil => simp at h
    | cons d ds =>
      have hlen : cs.length ≤ ds.length := by simpa using h
      show (c == d && isTag cs (ds ++ r)) = (c == d && isTag cs ds)
      rw [ih ds hlen]

/-- Whether a string carries a tag is decided by any leading piece at least
as long as the tag: the appended remainder cannot change it. -/
theorem strTagged_eq_append (tag s r : String)
    (h : tag.data.length ≤ s.data.length) :
    strTagged tag (s ++ r) = strTagged tag s := by
  unfold strTagged
  rw [String.data_append]
  exact isTag_append_of_le r.data tag.data s.data h

/-! ### Lemmas about the polling loop -/

theorem waitLoopT_first_true (net : Nat → Bool) (addr : String)
    (d fuel t : Nat) (hf : fuel ≠ 0) (ht : t < d) (hn : net t = true) :
    waitLoopT net addr d fuel t = (true, t, [Effect.probe addr t]) := by
  cases fuel with
  | zero => exact absurd rfl hf
  | succ f => simp [waitLoopT, ht, hn]

theorem waitLoopT_false_of_net (net : Nat → Bool) (addr : String)
    (h : ∀ s, net s = false) :
    ∀ fuel d t, (waitLoopT net addr d fuel t).1 = false := by
  intro fuel
  induction fuel with
  | zero => intro d t; simp [waitLoopT]
  | succ f ih =>
    intro d t
    by_cases ht : t < d
    · simp [waitLoopT, ht, h t, ih]
    · simp [waitLoopT, ht]

theorem waitLoopT_mem_probe (net : Nat → Bool) (addr : String) :
    ∀ fuel d t e, e ∈ (waitLoopT net addr d fuel t).2.2 →
      ∃ s, e = Effect.probe addr s ∧ t ≤ s ∧ s < d ∧
        ∃ k, s = t + k * BACKEND_READY_POLL := by
  intro fuel
  induction fuel with
  | zero => intro d t e h; simp [waitLoopT] at h
  | succ f ih =>
    intro d t e h
    by_cases ht : t < d
    · cases hn : net t with
      | true =>
        have htr : (waitLoopT net addr d (f + 1) t).2.2 =
            [Effect.probe addr t] := by
          simp [waitLoopT, ht, hn]
        rw [htr] at h
        simp only [List.mem_singleton] at h
        exact ⟨t, h, Nat.le_refl t, ht, 0, by simp⟩
      | false =>
        have htr : (waitLoopT net addr d (f + 1) t).2.2 =
            Effect.probe addr t ::
              (waitLoopT net addr d f (t + BACKEND_READY_POLL)).2.2 := by
          simp [waitLoopT, ht, hn]
        rw [htr] at h
        rcases List.mem_cons.mp h with h1 | h2
        · exact ⟨t, h1, Nat.le_refl t, ht, 0, by simp⟩
        · rcases ih d (t + BACKEND_READY_POLL) e h2 with ⟨s, he, hts, hsd, k, hk⟩
          refine ⟨s, he, ?_, hsd, k + 1, ?_⟩
          · omega
          · simp [BACKEND_READY_POLL] at hk ⊢; omega
    · simp [waitLoopT, ht] at h

theorem waitLoopT_true_iff (net : Nat → Bool) (addr : String) :
    ∀ fuel d t, d ≤ t + fuel * BACKEND_READY_POLL →
      ((waitLoopT net addr d fuel t).1 = true ↔
        ∃ k, t + k * BACKEND_READY_POLL < d ∧
          net (t + k * BACKEND_READY_POLL) = true) := by
  intro fuel
  induction fuel with
  | zero =>
    intro d t hd
    simp only [waitLoopT]
    constructor
    · intro h; exact absurd h (by simp)
    · rintro ⟨k, hk, -⟩
      exact absurd hk (by simp at hd; omega)
  | succ f ih =>
    intro d t hd
    by_cases ht : t < d
    · cases hn : net t with
      | true =>
        have h1 : (waitLoopT net addr d (f + 1) t).1 = true := by
          simp [waitLoopT, ht, hn]
        rw [h1]
        exact ⟨fun _ => ⟨0, by simpa using ht, by simpa using hn⟩,
          fun _ => rfl⟩
      | false =>
        have hd2 : d ≤ (t + BACKEND_READY_POLL) + f * BACKEND_READY_POLL := by
          simp [BACKEND_READY_POLL] at hd ⊢; omega
        have hih := ih d (t + BACKEND_READY_POLL) hd2
        have h1 : (waitLoopT net addr d (f + 1) t).1 =
            (waitLoopT net addr d f (t + BACKEND_READY_POLL)).1 := by
          simp [waitLoopT, ht, hn]
        rw [h1, hih]
        constructor
        · rintro ⟨k, hk, hnet⟩
          refine ⟨k + 1, ?_, ?_⟩
          · simp [BACKEND_READY_POLL] at hk ⊢; omega
          · have he : t + (k + 1) * BACKEND_READY_POLL =
                t + BACKEND_READY_POLL + k * BACKEND_READY_POLL := by
              simp [BACKEND_READY_POLL]; omega
            rw [he]; exact hnet
        · rintro ⟨k, hk, hnet⟩
          cases k with
          | zero =>
            simp only [Nat.zero_mul, Nat.add_zero] at hk hnet
            rw [hnet] at hn
            exact absurd hn (by simp)
          | succ k =>
            refine ⟨k, ?_, ?_⟩
            · simp [BACKEND_READY_POLL] at hk ⊢; omega
            · have he : t + BACKEND_READY_POLL + k * BACKEND_READY_POLL =
                  t + (k + 1) * BACKEND_READY_POLL := by
                simp [BACKEND_READY_POLL]; omega
              rw [he]; exact hnet
    · have h1 : (waitLoopT net addr d (f + 1) t).1 = false := by
        simp [waitLoopT, ht]
      rw [h1]
      constructor
      · intro h; exact absurd h (by simp)
      · rintro ⟨k, hk, -⟩; omega

theorem waitLoopT_count_le (net : Nat → Bool) (addr : String) :
    ∀ fuel d t, countProbes (waitLoopT net addr d fuel t).2.2 ≤ fuel := by
  intro fuel
  induction fuel with
  | zero => intro d t; simp [waitLoopT, countProbes]
  | succ f ih =>
    intro d t
    by_cases ht : t < d
    · cases hn : net t with
      | true =>
        have htr : (waitLoopT net addr d (f + 1) t).2.2 =
            [Effect.probe addr t] := by
          simp [waitLoopT, ht, hn]
        rw [htr]
        simp [countProbes, Effect.isProbe]
      | false =>
        have hih := ih d (t + BACKEND_READY_POLL)
        have htr : (waitLoopT net addr d (f + 1) t).2.2 =
            Effect.probe addr t ::
              (waitLoopT net addr d f (t + BACKEND_READY_POLL)).2.2 := by
          simp [waitLoopT, ht, hn]
        rw [htr]
        simp only [countProbes, List.filter_cons, Effect.isProbe,
          List.length_cons, if_true] at hih ⊢
        omega
    · have htr : (waitLoopT net addr d (f + 1) t).2.2 = [] := by
        simp [waitLoopT, ht]
      rw [htr]
      simp [countProbes]

theorem waitLoopT_count_pos (net : Nat → Bool) (addr : String)
    (d fuel t : Nat) (hf : fuel ≠ 0) (ht : t < d) :
    1 ≤ countProbes (waitLoopT net addr d fuel t).2.2 := by
  cases fuel with
  | zero => exact absurd rfl hf
  | succ f =>
    cases hn : net t with
    | true =>
      have htr : (waitLoopT net addr d (f + 1) t).2.2 =
          [Effect.probe addr t] := by
        simp [waitLoopT, ht, hn]
      rw [htr]
      simp [countProbes, Effect.isProbe]
    | false =>
      have htr : (waitLoopT net addr d (f + 1) t).2.2 =
          Effect.probe addr t ::
            (waitLoopT net addr d f (t + BACKEND_READY_POLL)).2.2 := by
        simp [waitLoopT, ht, hn]
      rw [htr]
      simp [countProbes, List.filter_cons, Effect.isProbe]

/-! ### Lemmas about `wait_for_backend_ready` -/

theorem wait_ready_true_iff (net : Nat → Bool) (port : String)
    (t0 timeout : Nat) :
    (wait_for_backend_ready net port t0 timeout).1 = true ↔
      ∃ k, k * BACKEND_READY_POLL < timeout ∧
        net (t0 + k * BACKEND_READY_POLL) = true := by
  unfold wait_for_backend_ready
  have hfuel : t0 + timeout ≤
      t0 + (timeout / BACKEND_READY_POLL + 1) * BACKEND_READY_POLL := by
    simp [BACKEND_READY_POLL]; omega
  rw [waitLoopT_true_iff net (BACKEND_HOST ++ ":" ++ port) _ _ _ hfuel]
  constructor
  · rintro ⟨k, hk, hnet⟩; exact ⟨k, by omega, hnet⟩
  · rintro ⟨k, hk, hnet⟩; exact ⟨k, by omega, hnet⟩

theorem wait_ready_mem_probe (net : Nat → Bool) (port : String)
    (t0 timeout : Nat) (e : Effect)
    (h : e ∈ (wait_for_backend_ready net port t0 timeout).2.2) :
    ∃ s, e = Effect.probe (BACKEND_HOST ++ ":" ++ port) s ∧
      t0 ≤ s ∧ s < t0 + timeout ∧ ∃ k, s = t0 + k * BACKEND_READY_POLL :=
  waitLoopT_mem_probe net (BACKEND_HOST ++ ":" ++ port) _ _ _ e h

theorem wait_ready_false_of_net (net : Nat → Bool) (port : String)
    (t0 timeout : Nat) (h : ∀ s, net s = false) :
    (wait_for_backend_ready net port t0 timeout).1 = false :=
  waitLoopT_false_of_net net (BACKEND_HOST ++ ":" ++ port) h _ _ _

/-! ### Branch equations of `spawn_backend` -/

theorem spawn_backend_reuse_eq (env : Env) (h0 : env.net 0 = true) :
    spawn_backend env =
      (true,
        [Effect.probe (BACKEND_HOST ++ ":" ++ env.appPort.getD "8000") 0,
         Effect.log ("backend: Reusing existing backend on " ++
           BACKEND_HOST ++ ":" ++ env.appPort.getD "8000")]) := by
  have hshort : wait_for_backend_ready env.net (env.appPort.getD "8000")
      0 250 =
      (true, 0,
        [Effect.probe (BACKEND_HOST ++ ":" ++ env.appPort.getD "8000") 0]) := by
    unfold wait_for_backend_ready
    exact waitLoopT_first_true _ _ _ _ _ (by simp) (by omega) h0
  simp [spawn_backend, hshort]

theorem spawn_backend_short_true_eq (env : Env)
    (h : (wait_for_backend_ready env.net (env.appPort.getD "8000")
      0 250).1 = true) :
    spawn_backend env =
      (true,
        (wait_for_backend_ready env.net (env.appPort.getD "8000")
          0 250).2.2 ++
        [Effect.log ("backend: Reusing existing backend on " ++
          BACKEND_HOST ++ ":" ++ env.appPort.getD "8000")]) := by
  simp [spawn_backend, h]

theorem spawn_backend_resolve_error_eq (env : Env) (e : String)
    (hshort : (wait_for_backend_ready env.net (env.appPort.getD "8000")
      0 250).1 = false)
    (hres : env.resolveSidecar = Except.error e) :
    spawn_backend env =
      (false,
        (wait_for_backend_ready env.net (env.appPort.getD "8000")
          0 250).2.2 ++
        [Effect.resolveSidecar sidecarName,
         Effect.log ("Failed to resolve backend sidecar: " ++ e)]) := by
  simp [spawn_backend, hshort, hres]

theorem spawn_backend_spawn_error_eq (env : Env) (e : String)
    (hshort : (wait_for_backend_ready env.net (env.appPort.getD "8000")
      0 250).1 = false)
    (hres : env.resolveSidecar = Except.ok ())
    (hspawn : env.spawnSidecar = Except.error e) :
    spawn_backend env =
      (false,
        (wait_for_backend_ready env.net (env.appPort.getD "8000")
          0 250).2.2 ++
        [Effect.resolveSidecar sidecarName,
         Effect.spawnChild
           ["--host", "127.0.0.1", "--port", env.appPort.getD "8000"]
           [("APP_VERSION", env.version),
            ("UPDATE_FEED_URL", env.updateFeedUrl.getD defaultFeedUrl)],
         Effect.log ("Failed to spawn backend sidecar: " ++ e)]) := by
  simp [spawn_backend, hshort, hres, hspawn]

theorem spawn_backend_timeout_eq (env : Env)
    (hshort : (wait_for_backend_ready env.net (env.appPort.getD "8000")
      0 250).1 = false)
    (hres : env.resolveSidecar = Except.ok ())
    (hspawn : env.spawnSidecar = Except.ok ())
    (hlong : (wait_for_backend_ready env.net (env.appPort.getD "8000")
      (wait_for_backend_ready env.net (env.appPort.getD "8000") 0 250).2.1
      BACKEND_READY_TIMEOUT).1 = false) :
    spawn_backend env =
      (false,
        (wait_for_backend_ready env.net (env.appPort.getD "8000")
          0 250).2.2 ++
        [Effect.resolveSidecar sidecarName,
         Effect.spawnChild
           ["--host", "127.0.0.1", "--port", env.appPort.getD "8000"]
           [("APP_VERSION", env.version),
            ("UPDATE_FEED_URL", env.updateFeedUrl.getD defaultFeedUrl)],
         Effect.startRelay] ++
        (wait_for_backend_ready env.net (env.appPort.getD "8000")
          (wait_for_backend_ready env.net (env.appPort.getD "8000")
            0 250).2.1 BACKEND_READY_TIMEOUT).2.2 ++
        [Effect.log ("Backend sidecar did not become ready on " ++
          BACKEND_HOST ++ ":" ++ env.appPort.getD "8000" ++
          " within 15s")]) := by
  simp [spawn_backend, hshort, hres, hspawn, hlong]

theorem spawn_backend_ready_eq (env : Env)
    (hshort : (wait_for_backend_ready env.net (env.appPort.getD "8000")
      0 250).1 = false)
    (hres : env.resolveSidecar = Except.ok ())
    (hspawn : env.spawnSidecar = Except.ok ())
    (hlong : (wait_for_backend_ready env.net (env.appPort.getD "8000")
      (wait_for_backend_ready env.net (env.appPort.getD "8000") 0 250).2.1
      BACKEND_READY_TIMEOUT).1 = true) :
    spawn_backend env =
      (true,
        (wait_for_backend_ready env.net (env.appPort.getD "8000")
          0 250).2.2 ++
        [Effect.resolveSidecar sidecarName,
         Effect.spawnChild
           ["--host", "127.0.0.1", "--port", env.appPort.getD "8000"]
           [("APP_VERSION", env.version),
            ("UPDATE_FEED_URL", env.updateFeedUrl.getD defaultFeedUrl)],
         Effect.startRelay] ++
        (wait_for_backend_ready env.net (env.appPort.getD "8000")
          (wait_for_backend_ready env.net (env.appPort.getD "8000")
            0 250).2.1 BACKEND_READY_TIMEOUT).2.2) := by
  simp [spawn_backend, hshort, hres, hspawn, hlong]

/-! ### Shared consequences -/

theorem spawn_backend_usesPort (env : Env) :
    (spawn_backend env).2.all (usesPort (env.appPort.getD "8000")) = true := by
  rw [List.all_eq_true]
  intro e he
  cases hshort : (wait_for_backend_ready env.net (env.appPort.getD "8000")
      0 250).1 with
  | true =>
    rw [spawn_backend_short_true_eq env hshort] at he
    rcases List.mem_append.mp he with h | h
    · rcases wait_ready_mem_probe _ _ _ _ _ h with ⟨s, rfl, -⟩
      simp [usesPort]
    · simp only [List.mem_singleton] at h
      subst h; rfl
  | false =>
    cases hres : env.resolveSidecar with
    | error e1 =>
      rw [spawn_backend_resolve_error_eq env e1 hshort hres] at he
      rcases List.mem_append.mp he with h | h
      · rcases wait_ready_mem_probe _ _ _ _ _ h with ⟨s, rfl, -⟩
        simp [usesPort]
      · rcases List.mem_cons.mp h with h | h
        · subst h; rfl
        · simp only [List.mem_singleton] at h; subst h; rfl
    | ok u =>
      cases u
      cases hspawn : env.spawnSidecar with
      | error e1 =>
        rw [spawn_backend_spawn_error_eq env e1 hshort hres hspawn] at he
        rcases List.mem_append.mp he with h | h
        · rcases wait_ready_mem_probe _ _ _ _ _ h with ⟨s, rfl, -⟩
          simp [usesPort]
        · rcases List.mem_cons.mp h with h | h
          · subst h; rfl
          · rcases List.mem_cons.mp h with h | h
            · subst h; simp [usesPort]
            · simp only [List.mem_singleton] at h; subst h; rfl
      | ok v =>
        cases v
        cases hlong : (wait_for_backend_ready env.net
            (env.appPort.getD "8000")
            (wait_for_backend_ready env.net (env.appPort.getD "8000")
              0 250).2.1 BACKEND_READY_TIMEOUT).1 with
        | true =>
          rw [spawn_backend_ready_eq env hshort hres hspawn hlong] at he
          rcases List.mem_append.mp he with h | h
          · rcases List.mem_append.mp h with h | h
            · rcases wait_ready_mem_probe _ _ _ _ _ h with ⟨s, rfl, -⟩
              simp [usesPort]
            · rcases List.mem_cons.mp h with h | h
              · subst h; rfl
              · rcases List.mem_cons.mp h with h | h
                · subst h; simp [usesPort]
                · simp only [List.mem_singleton] at h; subst h; rfl
          · rcases wait_ready_mem_probe _ _ _ _ _ h with ⟨s, rfl, -⟩
            simp [usesPort]
        | false =>
          rw [spawn_backend_timeout_eq env hshort hres hspawn hlong] at he
          rcases List.mem_append.mp he with h | h
          · rcases List.mem_append.mp h with h | h
            · rcases List.mem_append.mp h with h | h
              · rcases wait_ready_mem_probe _ _ _ _ _ h with ⟨s, rfl, -⟩
                simp [usesPort]
              · rcases List.mem_cons.mp h with h | h
                · subst h; rfl
                · rcases List.mem_cons.mp h with h | h
                  · subst h; simp [usesPort]
                  · simp only [List.mem_singleton] at h; subst h; rfl
            · rcases wait_ready_mem_probe _ _ _ _ _ h with ⟨s, rfl, -⟩
              simp [usesPort]
          · simp only [List.mem_singleton] at h; subst h; rfl

/-! ### The claims -/

/-- C1: if a TCP listener is already accepting connections on the target
port when `spawn_backend` is invoked (every connect attempt succeeds), the
supervisor returns true without ever resolving the sidecar binary and
without ever attempting process creation. -/
theorem spawn_backend_reuses_existing_listener (env : Env)
    (h : ∀ t, env.net t = true) :
    (spawn_backend env).1 = true ∧
    (∀ n, Effect.resolveSidecar n ∉ (spawn_backend env).2) ∧
    (∀ args envs, Effect.spawnChild args envs ∉ (spawn_backend env).2) := by
  rw [spawn_backend_reuse_eq env (h 0)]
  refine ⟨rfl, ?_, ?_⟩
  · intro n hmem
    simp at hmem
  · intro args envs hmem
    simp at hmem

/-- Witness for C1 at a world where every connect succeeds. -/
theorem spawn_backend_reuses_existing_listener_witness :
    (∀ t, envOpen.net t = true) ∧
    ((spawn_backend envOpen).1 = true ∧
     (∀ n, Effect.resolveSidecar n ∉ (spawn_backend envOpen).2) ∧
     (∀ args envs, Effect.spawnChild args envs ∉ (spawn_backend envOpen).2)) :=
  ⟨fun _ => rfl,
   spawn_backend_reuses_existing_listener envOpen (fun _ => rfl)⟩

/-- C2: `wait_for_backend_ready` polls single connect attempts at the fixed
120 ms interval: it returns true exactly when some attempt inside the
timeout window succeeds (equivalently, it returns false exactly when every
attempt before the deadline fails), and every connect attempt it makes
happens at an instant `t0 + k * 120` before the deadline. -/
theorem wait_for_backend_ready_polls_until_deadline (net : Nat → Bool)
    (port : String) (t0 timeout : Nat) :
    ((wait_for_backend_ready net port t0 timeout).1 = true ↔
      ∃ k, k * BACKEND_READY_POLL < timeout ∧
        net (t0 + k * BACKEND_READY_POLL) = true) ∧
    (∀ e, e ∈ (wait_for_backend_ready net port t0 timeout).2.2 →
      ∃ k, e = Effect.probe (BACKEND_HOST ++ ":" ++ port)
          (t0 + k * BACKEND_READY_POLL) ∧
        t0 + k * BACKEND_READY_POLL < t0 + timeout) := by
  refine ⟨wait_ready_true_iff net port t0 timeout, ?_⟩
  intro e he
  rcases wait_ready_mem_probe net port t0 timeout e he with
    ⟨s, rfl, -, hsd, k, rfl⟩
  exact ⟨k, rfl, hsd⟩

/-- Witness for C2 at an always-reachable network on the default port. -/
theorem wait_for_backend_ready_polls_until_deadline_witness :
    ((wait_for_backend_ready (fun _ => true) "8000" 0 250).1 = true ↔
      ∃ k, k * BACKEND_READY_POLL < 250 ∧
        (fun _ => true : Nat → Bool) (0 + k * BACKEND_READY_POLL) = true) ∧
    (∀ e, e ∈ (wait_for_backend_ready (fun _ => true) "8000" 0 250).2.2 →
      ∃ k, e = Effect.probe (BACKEND_HOST ++ ":" ++ "8000")
          (0 + k * BACKEND_READY_POLL) ∧
        0 + k * BACKEND_READY_POLL < 0 + 250) :=
  wait_for_backend_ready_polls_until_deadline (fun _ => true) "8000" 0 250

/-- C9: with a zero timeout the deadline has already passed when the loop
condition is first evaluated, so `wait_for_backend_ready` returns false
without making a single TCP connect attempt, whatever the network state. -/
theorem wait_for_backend_ready_zero_timeout (net : Nat → Bool)
    (port : String) (t0 : Nat) :
    wait_for_backend_ready net port t0 0 = (false, t0, []) := by
  simp [wait_for_backend_ready, waitLoopT]

/-- C3: when no backend is listening and either sidecar resolution or the
spawn syscall fails, `spawn_backend` returns false, logs a diagnostic, makes
no connect attempt outside the short 250 ms reuse probe (so the 15 s
readiness wait never runs), and attempts the spawn at most once. -/
theorem spawn_backend_fail_fast (env : Env) (e : String)
    (hnet : ∀ s, env.net s = false)
    (hfail : env.resolveSidecar = Except.error e ∨
      (env.resolveSidecar = Except.ok () ∧
        env.spawnSidecar = Except.error e)) :
    (spawn_backend env).1 = false ∧
    (∃ line, Effect.log line ∈ (spawn_backend env).2) ∧
    (∀ a s, Effect.probe a s ∈ (spawn_backend env).2 → s < 250) ∧
    countSpawnAttempts (spawn_backend env).2 ≤ 1 := by
  have hshort := wait_ready_false_of_net env.net (env.appPort.getD "8000")
    0 250 hnet
  have hnil : ∀ t0 timeout,
      (wait_for_backend_ready env.net (env.appPort.getD "8000")
        t0 timeout).2.2.filter Effect.isSpawnAttempt = [] := by
    intro t0 timeout
    rw [List.filter_eq_nil_iff]
    intro a ha
    rcases wait_ready_mem_probe _ _ _ _ _ ha with ⟨s, rfl, -⟩
    simp [Effect.isSpawnAttempt]
  rcases hfail with hres | ⟨hres, hspawn⟩
  · rw [spawn_backend_resolve_error_eq env e hshort hres]
    refine ⟨rfl, ⟨"Failed to resolve backend sidecar: " ++ e, by simp⟩,
      ?_, ?_⟩
    · intro a s hmem
      rcases List.mem_append.mp hmem with h | h
      · rcases wait_ready_mem_probe _ _ _ _ _ h with ⟨s1, heq, -, hsd, -⟩
        have : s = s1 := by injection heq
        omega
      · simp at h
    · simp [countSpawnAttempts, List.filter_append, hnil,
        Effect.isSpawnAttempt]
  · rw [spawn_backend_spawn_error_eq env e hshort hres hspawn]
    refine ⟨rfl, ⟨"Failed to spawn backend sidecar: " ++ e, by simp⟩,
      ?_, ?_⟩
    · intro a s hmem
      rcases List.mem_append.mp hmem with h | h
      · rcases wait_ready_mem_probe _ _ _ _ _ h with ⟨s1, heq, -, hsd, -⟩
        have : s = s1 := by injection heq
        omega
      · simp at h
    · simp [countSpawnAttempts, List.filter_append, hnil,
        Effect.isSpawnAttempt]

/-- Witness for C3 at a world where the sidecar binary does not resolve. -/
theorem spawn_backend_fail_fast_witness :
    ((∀ s, envResolveFail.net s = false) ∧
     envResolveFail.resolveSidecar = Except.error "not found") ∧
    ((spawn_backend envResolveFail).1 = false ∧
     (∃ line, Effect.log line ∈ (spawn_backend envResolveFail).2) ∧
     (∀ a s, Effect.probe a s ∈ (spawn_backend envResolveFail).2 → s < 250) ∧
     countSpawnAttempts (spawn_backend envResolveFail).2 ≤ 1) :=
  ⟨⟨fun _ => rfl, rfl⟩,
   spawn_backend_fail_fast envResolveFail "not found" (fun _ => rfl)
     (Or.inl rfl)⟩

/-- C4: `spawn_backend` is a total boolean function of its world — the
embedding has no fault outcome — and on every failing run the trace
contains a logged diagnostic line. -/
theorem spawn_backend_no_hard_fault (env : Env) :
    (spawn_backend env).1 = true ∨
    ((spawn_backend env).1 = false ∧
      ∃ line, Effect.log line ∈ (spawn_backend env).2) := by
  cases hshort : (wait_for_backend_ready env.net (env.appPort.getD "8000")
      0 250).1 with
  | true =>
    rw [spawn_backend_short_true_eq env hshort]
    exact Or.inl rfl
  | false =>
    cases hres : env.resolveSidecar with
    | error e =>
      rw [spawn_backend_resolve_error_eq env e hshort hres]
      exact Or.inr ⟨rfl, "Failed to resolve backend sidecar: " ++ e, by simp⟩
    | ok u =>
      cases u
      cases hspawn : env.spawnSidecar with
      | error e =>
        rw [spawn_backend_spawn_error_eq env e hshort hres hspawn]
        exact Or.inr ⟨rfl, "Failed to spawn backend sidecar: " ++ e, by simp⟩
      | ok v =>
        cases v
        cases hlong : (wait_for_backend_ready env.net
            (env.appPort.getD "8000")
            (wait_for_backend_ready env.net (env.appPort.getD "8000")
              0 250).2.1 BACKEND_READY_TIMEOUT).1 with
        | true =>
          rw [spawn_backend_ready_eq env hshort hres hspawn hlong]
          exact Or.inl rfl
        | false =>
          rw [spawn_backend_timeout_eq env hshort hres hspawn hlong]
          exact Or.inr ⟨rfl,
            "Backend sidecar did not become ready on " ++ BACKEND_HOST ++
              ":" ++ env.appPort.getD "8000" ++ " within 15s", by simp⟩

/-- C5 counterexample: in a world with nothing listening (and an
unresolvable sidecar, so every probe belongs to the pre-spawn detection),
the pre-spawn detection makes 3 TCP connect attempts, not a single one. -/
theorem short_probe_not_single_attempt :
    countProbes (spawn_backend envResolveFail).2 = 3 ∧ (3 : Nat) ≠ 1 := by
  constructor
  · decide
  · decide

/-- C5 amended: the pre-spawn detection is the 250 ms readiness poll: it
makes between one and three connect attempts (120 ms apart), and exactly
one when the first connect succeeds; no retries happen inside one attempt.
-/
theorem short_probe_bounded_attempts (net : Nat → Bool) (port : String) :
    1 ≤ countProbes (wait_for_backend_ready net port 0 250).2.2 ∧
    countProbes (wait_for_backend_ready net port 0 250).2.2 ≤ 3 ∧
    (net 0 = true →
      countProbes (wait_for_backend_ready net port 0 250).2.2 = 1) := by
  refine ⟨?_, ?_, ?_⟩
  · exact waitLoopT_count_pos net (BACKEND_HOST ++ ":" ++ port) _ _ _
      (by simp) (by omega)
  · have h := waitLoopT_count_le net (BACKEND_HOST ++ ":" ++ port)
      (250 / BACKEND_READY_POLL + 1) (0 + 250) 0
    have h3 : 250 / BACKEND_READY_POLL + 1 = 3 := by decide
    rw [h3] at h
    exact h
  · intro h0
    unfold wait_for_backend_ready
    rw [waitLoopT_first_true net (BACKEND_HOST ++ ":" ++ port) _ _ _
      (by simp) (by omega) h0]
    simp [countProbes, Effect.isProbe]

/-- Witness for the amended C5 at an always-reachable network. -/
theorem short_probe_bounded_attempts_witness :
    1 ≤ countProbes
        (wait_for_backend_ready (fun _ => true) "8000" 0 250).2.2 ∧
    countProbes
        (wait_for_backend_ready (fun _ => true) "8000" 0 250).2.2 ≤ 3 ∧
    ((fun _ => true : Nat → Bool) 0 = true →
      countProbes
        (wait_for_backend_ready (fun _ => true) "8000" 0 250).2.2 = 1) :=
  short_probe_bounded_attempts (fun _ => true) "8000"

/-- C6: when `APP_PORT` is unset, every connect probe (reuse probe and
readiness wait) targets `127.0.0.1:8000` and every spawn attempt passes
`--port 8000`: the target port is the string "8000". -/
theorem spawn_backend_default_port (env : Env) (h : env.appPort = none) :
    (spawn_backend env).2.all (usesPort "8000") = true := by
  have hall := spawn_backend_usesPort env
  rw [h] at hall
  simpa using hall

/-- Witness for C6 at a world with `APP_PORT` unset. -/
theorem spawn_backend_default_port_witness :
    envResolveFail.appPort = none ∧
    (spawn_backend envResolveFail).2.all (usesPort "8000") = true :=
  ⟨rfl, spawn_backend_default_port envResolveFail rfl⟩

/-- C7: any spawn attempt `spawn_backend` makes uses exactly the arguments
`--host 127.0.0.1 --port <port>` and an environment containing
`APP_VERSION` (the application version) and `UPDATE_FEED_URL` (the value of
the `UPDATE_FEED_URL` environment variable, defaulting to the fixed feed
URL). -/
theorem spawn_backend_child_invocation (env : Env)
    (args : List String) (envs : List (String × String))
    (h : Effect.spawnChild args envs ∈ (spawn_backend env).2) :
    args = ["--host", "127.0.0.1", "--port", env.appPort.getD "8000"] ∧
    ("APP_VERSION", env.version) ∈ envs ∧
    ("UPDATE_FEED_URL", env.updateFeedUrl.getD defaultFeedUrl) ∈ envs := by
  cases hshort : (wait_for_backend_ready env.net (env.appPort.getD "8000")
      0 250).1 with
  | true =>
    rw [spawn_backend_short_true_eq env hshort] at h
    rcases List.mem_append.mp h with h | h
    · rcases wait_ready_mem_probe _ _ _ _ _ h with ⟨s, heq, -⟩
      simp at heq
    · simp at h
  | false =>
    cases hres : env.resolveSidecar with
    | error e1 =>
      rw [spawn_backend_resolve_error_eq env e1 hshort hres] at h
      rcases List.mem_append.mp h with h | h
      · rcases wait_ready_mem_probe _ _ _ _ _ h with ⟨s, heq, -⟩
        simp at heq
      · simp at h
    | ok u =>
      cases u
      cases hspawn : env.spawnSidecar with
      | error e1 =>
        rw [spawn_backend_spawn_error_eq env e1 hshort hres hspawn] at h
        rcases List.mem_append.mp h with h | h
        · rcases wait_ready_mem_probe _ _ _ _ _ h with ⟨s, heq, -⟩
          simp at heq
        · simp at h
          obtain ⟨h1, h2⟩ := h
          subst h1; subst h2
          exact ⟨rfl, by simp, by simp⟩
      | ok v =>
        cases v
        cases hlong : (wait_for_backend_ready env.net
            (env.appPort.getD "8000")
            (wait_for_backend_ready env.net (env.appPort.getD "8000")
              0 250).2.1 BACKEND_READY_TIMEOUT).1 with
        | true =>
          rw [spawn_backend_ready_eq env hshort hres hspawn hlong] at h
          rcases List.mem_append.mp h with h | h
          · rcases List.mem_append.mp h with h | h
            · rcases wait_ready_mem_probe _ _ _ _ _ h with ⟨s, heq, -⟩
              simp at heq
            · simp at h
              obtain ⟨h1, h2⟩ := h
              subst h1; subst h2
              exact ⟨rfl, by simp, by simp⟩
          · rcases wait_ready_mem_probe _ _ _ _ _ h with ⟨s, heq, -⟩
            simp at heq
        | false =>
          rw [spawn_backend_timeout_eq env hshort hres hspawn hlong] at h
          rcases List.mem_append.mp h with h | h
          · rcases List.mem_append.mp h with h | h
            · rcases List.mem_append.mp h with h | h
              · rcases wait_ready_mem_probe _ _ _ _ _ h with ⟨s, heq, -⟩
                simp at heq
              · simp at h
                obtain ⟨h1, h2⟩ := h
                subst h1; subst h2
                exact ⟨rfl, by simp, by simp⟩
            · rcases wait_ready_mem_probe _ _ _ _ _ h with ⟨s, heq, -⟩
              simp at heq
          · simp at h

/-- Witness for C7 at a world where the spawn syscall is attempted (and
fails, keeping the trace short). -/
theorem spawn_backend_child_invocation_witness :
    (Effect.spawnChild ["--host", "127.0.0.1", "--port", "8000"]
        [("APP_VERSION", "1.2.3"), ("UPDATE_FEED_URL", defaultFeedUrl)] ∈
      (spawn_backend envSpawnFail).2) ∧
    (["--host", "127.0.0.1", "--port", "8000"] =
        ["--host", "127.0.0.1", "--port", envSpawnFail.appPort.getD "8000"] ∧
      ("APP_VERSION", envSpawnFail.version) ∈
        [("APP_VERSION", "1.2.3"), ("UPDATE_FEED_URL", defaultFeedUrl)] ∧
      ("UPDATE_FEED_URL", envSpawnFail.updateFeedUrl.getD defaultFeedUrl) ∈
        [("APP_VERSION", "1.2.3"), ("UPDATE_FEED_URL", defaultFeedUrl)]) :=
  ⟨by decide,
   spawn_backend_child_invocation envSpawnFail
     ["--host", "127.0.0.1", "--port", "8000"]
     [("APP_VERSION", "1.2.3"), ("UPDATE_FEED_URL", defaultFeedUrl)]
     (by decide)⟩

/-- C8 counterexample: the spawn-failure diagnostic for an unresolvable
sidecar is emitted without the `backend:` prefix, refuting the claim that
every diagnostic line carries it. -/
theorem unprefixed_diagnostic_exists :
    Effect.log "Failed to resolve backend sidecar: not found" ∈
      (spawn_backend envResolveFail).2 ∧
    strTagged "backend:"
      "Failed to resolve backend sidecar: not found" = false := by
  exact ⟨by decide, by decide⟩

/-- C8 amended: all diagnostics go to the single stderr stream, but only
the reuse notice and the relayed child output carry the `backend: ` prefix;
the resolve-failure, spawn-failure and readiness-timeout lines are written
without that prefix and start, respectively for their causes, with
"Failed to resolve backend sidecar: ", "Failed to spawn backend sidecar: "
and "Backend sidecar did not become ready on ". -/
theorem supervisor_log_conventions (env : Env)
    (events : List CommandEvent) (line l : String)
    (hline : Effect.log line ∈ (spawn_backend env).2)
    (hl : l ∈ relayLogs events) :
    ((strTagged "backend: " line = true ∧
      line = "backend: Reusing existing backend on " ++ BACKEND_HOST ++
        ":" ++ env.appPort.getD "8000" ∧
      (wait_for_backend_ready env.net (env.appPort.getD "8000")
        0 250).1 = true) ∨
     (strTagged "backend: " line = false ∧
      strTagged "Failed to resolve backend sidecar: " line = true ∧
      ∃ e, env.resolveSidecar = Except.error e) ∨
     (strTagged "backend: " line = false ∧
      strTagged "Failed to spawn backend sidecar: " line = true ∧
      ∃ e, env.spawnSidecar = Except.error e) ∨
     (strTagged "backend: " line = false ∧
      strTagged "Backend sidecar did not become ready on " line = true ∧
      env.resolveSidecar = Except.ok () ∧
      env.spawnSidecar = Except.ok ())) ∧
    strTagged "backend: " l = true := by
  constructor
  · cases hshort : (wait_for_backend_ready env.net
        (env.appPort.getD "8000") 0 250).1 with
    | true =>
      rw [spawn_backend_short_true_eq env hshort] at hline
      rcases List.mem_append.mp hline with h | h
      · rcases wait_ready_mem_probe _ _ _ _ _ h with ⟨s, heq, -⟩
        simp at heq
      · simp only [List.mem_singleton] at h
        have hl2 : line = "backend: Reusing existing backend on " ++
            BACKEND_HOST ++ ":" ++ env.appPort.getD "8000" := by
          injection h
        subst hl2
        refine Or.inl ⟨?_, rfl, rfl⟩
        have base : strTagged "backend: "
            "backend: Reusing existing backend on " = true := by decide
        exact strTagged_append _ _ _ (strTagged_append _ _ _
          (strTagged_append _ _ _ base))
    | false =>
      cases hres : env.resolveSidecar with
      | error e1 =>
        rw [spawn_backend_resolve_error_eq env e1 hshort hres] at hline
        rcases List.mem_append.mp hline with h | h
        · rcases wait_ready_mem_probe _ _ _ _ _ h with ⟨s, heq, -⟩
          simp at heq
        · simp at h
          subst h
          refine Or.inr (Or.inl ⟨?_, strTagged_self_append _ e1, e1, rfl⟩)
          rw [strTagged_eq_append "backend: "
            "Failed to resolve backend sidecar: " e1 (by decide)]
          decide
      | ok u =>
        cases u
        cases hspawn : env.spawnSidecar with
        | error e1 =>
          rw [spawn_backend_spawn_error_eq env e1 hshort hres hspawn]
            at hline
          rcases List.mem_append.mp hline with h | h
          · rcases wait_ready_mem_probe _ _ _ _ _ h with ⟨s, heq, -⟩
            simp at heq
          · simp at h
            subst h
            refine Or.inr (Or.inr (Or.inl
              ⟨?_, strTagged_self_append _ e1, e1, rfl⟩))
            rw [strTagged_eq_append "backend: "
              "Failed to spawn backend sidecar: " e1 (by decide)]
            decide
        | ok v =>
          cases v
          cases hlong : (wait_for_backend_ready env.net
              (env.appPort.getD "8000")
              (wait_for_backend_ready env.net (env.appPort.getD "8000")
                0 250).2.1 BACKEND_READY_TIMEOUT).1 with
          | true =>
            rw [spawn_backend_ready_eq env hshort hres hspawn hlong]
              at hline
            rcases List.mem_append.mp hline with h | h
            · rcases List.mem_append.mp h with h | h
              · rcases wait_ready_mem_probe _ _ _ _ _ h with ⟨s, heq, -⟩
                simp at heq
              · simp at h
            · rcases wait_ready_mem_probe _ _ _ _ _ h with ⟨s, heq, -⟩
              simp at heq
          | false =>
            rw [spawn_backend_timeout_eq env hshort hres hspawn hlong]
              at hline
            rcases List.mem_append.mp hline with h | h
            · rcases List.mem_append.mp h with h | h
              · rcases List.mem_append.mp h with h | h
                · rcases wait_ready_mem_probe _ _ _ _ _ h with ⟨s, heq, -⟩
                  simp at heq
                · simp at h
              · rcases wait_ready_mem_probe _ _ _ _ _ h with ⟨s, heq, -⟩
                simp at heq
            · simp only [List.mem_singleton] at h
              have hl2 : line = "Backend sidecar did not become ready on "
                  ++ BACKEND_HOST ++ ":" ++ env.appPort.getD "8000" ++
                  " within 15s" := by
                injection h
              subst hl2
              refine Or.inr (Or.inr (Or.inr ⟨?_, ?_, rfl, rfl⟩))
              · have hassoc : "Backend sidecar did not become ready on " ++
                    BACKEND_HOST ++ ":" ++ env.appPort.getD "8000" ++
                    " within 15s" =
                    "Backend sidecar did not become ready on " ++
                    (BACKEND_HOST ++ (":" ++ (env.appPort.getD "8000" ++
                      " within 15s"))) := by
                  simp [String.append_assoc]
                rw [hassoc, strTagged_eq_append "backend: "
                  "Backend sidecar did not become ready on " _ (by decide)]
                decide
              · exact strTagged_append _ _ _ (strTagged_append _ _ _
                  (strTagged_append _ _ _ (strTagged_self_append _ _)))
  · rcases List.mem_filterMap.mp hl with ⟨ev, -, hev⟩
    cases ev with
    | stdout s =>
      simp only [relayLine, Option.some_inj] at hev
      subst hev
      exact strTagged_self_append _ s
    | stderr s =>
      simp only [relayLine, Option.some_inj] at hev
      subst hev
      exact strTagged_self_append _ s
    | terminated c => simp [relayLine] at hev
    | error m => simp [relayLine] at hev

/-- Witness for the amended C8 at a failing resolve with one child
stdout line. -/
theorem supervisor_log_conventions_witness :
    (Effect.log "Failed to resolve backend sidecar: not found" ∈
        (spawn_backend envResolveFail).2 ∧
      "backend: ready" ∈ relayLogs [CommandEvent.stdout "ready"]) ∧
    (((strTagged "backend: "
        "Failed to resolve backend sidecar: not found" = true ∧
       "Failed to resolve backend sidecar: not found" =
         "backend: Reusing existing backend on " ++ BACKEND_HOST ++ ":" ++
           envResolveFail.appPort.getD "8000" ∧
       (wait_for_backend_ready envResolveFail.net
         (envResolveFail.appPort.getD "8000") 0 250).1 = true) ∨
      (strTagged "backend: "
        "Failed to resolve backend sidecar: not found" = false ∧
       strTagged "Failed to resolve backend sidecar: "
        "Failed to resolve backend sidecar: not found" = true ∧
       ∃ e, envResolveFail.resolveSidecar = Except.error e) ∨
      (strTagged "backend: "
        "Failed to resolve backend sidecar: not found" = false ∧
       strTagged "Failed to spawn backend sidecar: "
        "Failed to resolve backend sidecar: not found" = true ∧
       ∃ e, envResolveFail.spawnSidecar = Except.error e) ∨
      (strTagged "backend: "
        "Failed to resolve backend sidecar: not found" = false ∧
       strTagged "Backend sidecar did not become ready on "
        "Failed to resolve backend sidecar: not found" = true ∧
       envResolveFail.resolveSidecar = Except.ok () ∧
       envResolveFail.spawnSidecar = Except.ok ())) ∧
     strTagged "backend: " "backend: ready" = true) :=
  ⟨⟨by decide, by decide⟩,
   supervisor_log_conventions envResolveFail [CommandEvent.stdout "ready"]
     "Failed to resolve backend sidecar: not found" "backend: ready"
     (by decide) (by decide)⟩

/-- C10: when the spawn succeeds but the backend never opens the port, the
readiness wait times out and `spawn_backend` returns false having started
the log relay and leaving the child untouched: the trace holds no
child-kill and no relay-stop effect. -/
theorem spawn_backend_timeout_keeps_child (env : Env)
    (hnet : ∀ s, env.net s = false)
    (hres : env.resolveSidecar = Except.ok ())
    (hspawn : env.spawnSidecar = Except.ok ()) :
    (spawn_backend env).1 = false ∧
    Effect.startRelay ∈ (spawn_backend env).2 ∧
    (spawn_backend env).2.all noCleanup = true := by
  have hshort := wait_ready_false_of_net env.net (env.appPort.getD "8000")
    0 250 hnet
  have hlong := wait_ready_false_of_net env.net (env.appPort.getD "8000")
    (wait_for_backend_ready env.net (env.appPort.getD "8000") 0 250).2.1
    BACKEND_READY_TIMEOUT hnet
  rw [spawn_backend_timeout_eq env hshort hres hspawn hlong]
  refine ⟨rfl, by simp, ?_⟩
  rw [List.all_eq_true]
  intro e he
  rcases List.mem_append.mp he with h | h
  · rcases List.mem_append.mp h with h | h
    · rcases List.mem_append.mp h with h | h
      · rcases wait_ready_mem_probe _ _ _ _ _ h with ⟨s, rfl, -⟩
        rfl
      · rcases List.mem_cons.mp h with h | h
        · subst h; rfl
        · rcases List.mem_cons.mp h with h | h
          · subst h; rfl
          · simp only [List.mem_singleton] at h
            subst h; rfl
    · rcases wait_ready_mem_probe _ _ _ _ _ h with ⟨s, rfl, -⟩
      rfl
  · simp only [List.mem_singleton] at h
    subst h; rfl

/-- Witness for C10 at a world where the backend never opens its port. -/
theorem spawn_backend_timeout_keeps_child_witness :
    ((∀ s, envNoBackend.net s = false) ∧
     envNoBackend.resolveSidecar = Except.ok () ∧
     envNoBackend.spawnSidecar = Except.ok ()) ∧
    ((spawn_backend envNoBackend).1 = false ∧
     Effect.startRelay ∈ (spawn_backend envNoBackend).2 ∧
     (spawn_backend envNoBackend).2.all noCleanup = true) :=
  ⟨⟨fun _ => rfl, rfl, rfl⟩,
   spawn_backend_timeout_keeps_child envNoBackend (fun _ => rfl) rfl rfl⟩

end Interlena
